import Mathlib

/-!
Verification of the MODEXO x402 coordination layer: payment sessions,
escrow ledger, rate limiter and dynamic pricing, shallowly embedded from
the TypeScript sources.  Wall-clock times are modelled as `Nat`
milliseconds passed explicitly to each operation; JS numbers that carry
fractional values (amounts, fees, multipliers) are modelled as `ℚ`.
Each in-memory map is viewed per key: an operation on one session,
escrow id or bucket key never touches another entry, so the claims,
which are all per-entry, are stated on a single entry's state.
-/

namespace Modexo

/-! ## Shared validation (`shared/x402`) -/

/-- One character of the base58 class `[1-9A-HJ-NP-Za-km-z]` used by
`validateSolanaAddress`. -/
def isBase58Char (c : Char) : Bool :=
  (('1' ≤ c && c ≤ '9') || ('A' ≤ c && c ≤ 'H') || ('J' ≤ c && c ≤ 'N')
    || ('P' ≤ c && c ≤ 'Z') || ('a' ≤ c && c ≤ 'k') || ('m' ≤ c && c ≤ 'z'))

/-- `validateSolanaAddress`: the address matches
`^[1-9A-HJ-NP-Za-km-z]{32,44}$`. -/
def validateSolanaAddress (address : String) : Bool :=
  (32 ≤ address.length && address.length ≤ 44) && address.data.all isBase58Char

/-! ## Payment session store (`x402-payment` session module)

The module keeps `sessions : Map<string, PaymentSession>`; all claims are
about one session record, so operations act on a `PaymentSession` and
return the updated record (plus the boolean the TS function returns).
`cleanupExpiredSessions` only deletes map entries and never writes a
status, so it does not appear in the per-session status step. -/

inductive SessionStatus
  | pending
  | paid
  | expired
  | used
deriving DecidableEq

structure PaymentSession where
  sessionId : String
  walletAddress : String
  agentId : String
  resource : String
  amountRequired : String
  status : SessionStatus
  createdAt : Nat
  expiresAt : Nat
  paidAt : Option Nat := none
  transactionSignature : Option String := none
  usedAt : Option Nat := none
deriving DecidableEq

/-- `config.expirationMinutes * 60 * 1000` with `expirationMinutes = 5`. -/
def sessionExpirationMs : Nat := 5 * 60 * 1000

/-- `createSession`: fresh session, status `"pending"`, expiry five
minutes out.  The random UUID is passed in as `sessionId`. -/
def createSession (now : Nat) (walletAddress agentId resource amountRequired sessionId : String) :
    PaymentSession :=
  { sessionId, walletAddress, agentId, resource, amountRequired
    status := .pending
    createdAt := now
    expiresAt := now + sessionExpirationMs }

/-- The status write `getSession` performs before returning the session:
a pending session past its expiry flips to `"expired"`. -/
def getSessionUpdate (now : Nat) (s : PaymentSession) : PaymentSession :=
  if s.status = .pending ∧ s.expiresAt < now then { s with status := .expired } else s

/-- `markSessionPaid`. -/
def markSessionPaid (now : Nat) (transactionSignature : String) (s : PaymentSession) :
    PaymentSession × Bool :=
  if s.status ≠ .pending then (s, false)
  else if s.expiresAt < now then ({ s with status := .expired }, false)
  else
    ({ s with
        status := .paid
        paidAt := some now
        transactionSignature := some transactionSignature }, true)

/-- `markSessionUsed`. -/
def markSessionUsed (now : Nat) (s : PaymentSession) : PaymentSession × Bool :=
  if s.status ≠ .paid then (s, false)
  else ({ s with status := .used, usedAt := some now }, true)

/-- `extendSession`: pushes the expiry of a pending session. -/
def extendSession (minutes : Nat) (s : PaymentSession) : PaymentSession × Bool :=
  if s.status ≠ .pending then (s, false)
  else ({ s with expiresAt := s.expiresAt + minutes * 60 * 1000 }, true)

/-- `validateSession`: reads through `getSession` (hence may lazily
expire) and reports validity, which holds exactly for `"paid"`. -/
def validateSession (now : Nat) (s : PaymentSession) : PaymentSession × Bool :=
  let s2 := getSessionUpdate now s
  (s2, s2.status == .paid)

/-- Every exported operation that can write a session record. -/
inductive SessionOp
  | getSession (now : Nat)
  | markPaid (now : Nat) (sig : String)
  | markUsed (now : Nat)
  | extend (minutes : Nat)
  | validate (now : Nat)

def applySessionOp : SessionOp → PaymentSession → PaymentSession
  | .getSession now, s => getSessionUpdate now s
  | .markPaid now sig, s => (markSessionPaid now sig s).1
  | .markUsed now, s => (markSessionUsed now s).1
  | .extend m, s => (extendSession m s).1
  | .validate now, s => (validateSession now s).1

/-- The allowed status moves: stay put, `pending → paid`,
`pending → expired`, or `paid → used`. -/
def statusStep (a b : SessionStatus) : Prop :=
  b = a ∨ (a = .pending ∧ b = .paid) ∨ (a = .pending ∧ b = .expired)
    ∨ (a = .paid ∧ b = .used)

/-- C1: `createSession` starts at `"pending"` and every session
operation respects the transition diagram
pending→paid, pending→expired, paid→used; in particular nothing leaves
`"expired"` or `"used"` and nothing moves backwards. -/
theorem session_status_transitions :
    (∀ now w a r amt id, (createSession now w a r amt id).status = .pending) ∧
    (∀ (op : SessionOp) (s : PaymentSession), statusStep s.status (applySessionOp op s).status) := by
  constructor
  · intro now w a r amt id
    rfl
  · intro op s
    cases op with
    | getSession now =>
      simp only [applySessionOp, getSessionUpdate]
      split
      · rename_i h
        exact Or.inr (Or.inr (Or.inl ⟨h.1, rfl⟩))
      · exact Or.inl rfl
    | markPaid now sig =>
      simp only [applySessionOp, markSessionPaid]
      split
      · exact Or.inl rfl
      · rename_i h
        rw [not_not] at h
        split
        · exact Or.inr (Or.inr (Or.inl ⟨h, rfl⟩))
        · exact Or.inr (Or.inl ⟨h, rfl⟩)
    | markUsed now =>
      simp only [applySessionOp, markSessionUsed]
      split
      · exact Or.inl rfl
      · rename_i h
        rw [not_not] at h
        exact Or.inr (Or.inr (Or.inr ⟨h, rfl⟩))
    | extend m =>
      simp only [applySessionOp, extendSession]
      split
      · exact Or.inl rfl
      · exact Or.inl rfl
    | validate now =>
      simp only [applySessionOp, validateSession, getSessionUpdate]
      split
      · rename_i h
        exact Or.inr (Or.inr (Or.inl ⟨h.1, rfl⟩))
      · exact Or.inl rfl

/-- C2: on a pending session whose expiry is strictly in the past,
`markSessionPaid` returns `false`, flips the status to `"expired"` and
writes neither `paidAt` nor `transactionSignature`. -/
theorem markSessionPaid_expired (now : Nat) (sig : String) (s : PaymentSession)
    (hpend : s.status = .pending) (hexp : s.expiresAt < now) :
    (markSessionPaid now sig s).2 = false ∧
    (markSessionPaid now sig s).1.status = .expired ∧
    (markSessionPaid now sig s).1.paidAt = s.paidAt ∧
    (markSessionPaid now sig s).1.transactionSignature = s.transactionSignature := by
  simp only [markSessionPaid, hpend]
  rw [if_neg (by simp), if_pos hexp]
  exact ⟨rfl, rfl, rfl, rfl⟩

/-- A concrete pending session, already past its expiry at time 301000. -/
def sessionEx : PaymentSession :=
  { sessionId := "sess1", walletAddress := "w", agentId := "agent", resource := "/r"
    amountRequired := "1", status := .pending, createdAt := 0
    expiresAt := sessionExpirationMs }

theorem markSessionPaid_expired_witness :
    (markSessionPaid 301000 "sig" sessionEx).2 = false ∧
    (markSessionPaid 301000 "sig" sessionEx).1.status = .expired ∧
    (markSessionPaid 301000 "sig" sessionEx).1.paidAt = sessionEx.paidAt ∧
    (markSessionPaid 301000 "sig" sessionEx).1.transactionSignature
      = sessionEx.transactionSignature :=
  markSessionPaid_expired 301000 "sig" sessionEx (by decide) (by decide)

/-! ## Escrow ledger (`x402-escrow.ts`)

The module keeps `escrowAccounts : Map<string, EscrowAccount>`,
`activeDisputes : Map<string, EscrowDispute>` and a metrics record.  The
claims are per escrow id, so the state is one escrow record, its
(optional) active dispute, and the shared metrics. -/

def ESCROW_EXPIRY_MS : Nat := 86400000
def MAX_ESCROW_AMOUNT : ℚ := 1000
def MIN_ESCROW_AMOUNT : ℚ := 1/1000
def ESCROW_FEE_PERCENT : ℚ := 1/2

inductive EscrowStatus
  | held
  | released
  | refunded
  | disputed
  | expired
deriving DecidableEq

inductive DisputeResolution
  | release
  | refund
  | split
deriving DecidableEq

structure EscrowAccount where
  id : String
  depositor : String
  beneficiary : String
  amount : ℚ
  fee : ℚ
  status : EscrowStatus
  createdAt : Nat
  expiresAt : Nat
  releasedAt : Option Nat := none
  releaseCondition : String
deriving DecidableEq

structure EscrowDispute where
  escrowId : String
  initiatedBy : String
  reason : String
  evidence : List String
  createdAt : Nat
  resolvedAt : Option Nat := none
  resolution : Option DisputeResolution := none
deriving DecidableEq

structure EscrowMetrics where
  totalEscrows : Nat
  activeEscrows : Int
  totalReleased : Nat
  totalRefunded : Nat
  totalDisputed : Nat
  totalFeesCollected : ℚ
  averageHoldTime : ℚ
deriving DecidableEq

/-- Per-id view of the escrow module's state. -/
structure EscrowState where
  escrow : EscrowAccount
  dispute : Option EscrowDispute := none
  metrics : EscrowMetrics
deriving DecidableEq

def calculateEscrowFee (amount : ℚ) : ℚ :=
  amount * (ESCROW_FEE_PERCENT / 100)

/-- `createEscrow`: validates both addresses, the amount bounds and
depositor ≠ beneficiary, then records a `"held"` escrow and bumps
`totalEscrows` and `activeEscrows`.  The random id is passed in. -/
def createEscrow (now : Nat) (id depositor beneficiary : String) (amount : ℚ)
    (releaseCondition : String) (expiryMs : Nat) (m : EscrowMetrics) :
    Option (EscrowAccount × EscrowMetrics) :=
  if ¬ (validateSolanaAddress depositor && validateSolanaAddress beneficiary) then none
  else if amount < MIN_ESCROW_AMOUNT ∨ MAX_ESCROW_AMOUNT < amount then none
  else if depositor = beneficiary then none
  else
    let escrow : EscrowAccount :=
      { id, depositor, beneficiary, amount
        fee := calculateEscrowFee amount
        status := .held
        createdAt := now
        expiresAt := now + expiryMs
        releaseCondition }
    some (escrow,
      { m with
          totalEscrows := m.totalEscrows + 1
          activeEscrows := m.activeEscrows + 1 })

/-- `updateAverageHoldTime`, called after a release/refund has already
bumped the completed counters. -/
def updateAverageHoldTime (now : Nat) (e : EscrowAccount) (m : EscrowMetrics) :
    EscrowMetrics :=
  let holdTime : ℚ := ((e.releasedAt.getD now : Nat) : ℚ) - (e.createdAt : ℚ)
  let completedCount : ℚ := (m.totalReleased : ℚ) + (m.totalRefunded : ℚ)
  let totalTime := m.averageHoldTime * (completedCount - 1)
  { m with averageHoldTime := (totalTime + holdTime) / completedCount }

/-- `releaseEscrow`: only the depositor may release, and only a `"held"`
escrow. -/
def releaseEscrow (now : Nat) (authorizedBy : String) (st : EscrowState) :
    EscrowState × Bool :=
  if st.escrow.status ≠ .held then (st, false)
  else if authorizedBy ≠ st.escrow.depositor then (st, false)
  else
    let e := { st.escrow with status := EscrowStatus.released, releasedAt := some now }
    let m1 :=
      { st.metrics with
          activeEscrows := st.metrics.activeEscrows - 1
          totalReleased := st.metrics.totalReleased + 1
          totalFeesCollected := st.metrics.totalFeesCollected + e.fee }
    ({ st with escrow := e, metrics := updateAverageHoldTime now e m1 }, true)

/-- `refundEscrow`: accepts a `"held"` or `"disputed"` escrow.  The
`reason` argument is ignored by the source as well. -/
def refundEscrow (now : Nat) (reason : String) (st : EscrowState) :
    EscrowState × Bool :=
  if st.escrow.status ≠ .held ∧ st.escrow.status ≠ .disputed then (st, false)
  else
    let e := { st.escrow with status := EscrowStatus.refunded, releasedAt := some now }
    let m1 :=
      { st.metrics with
          activeEscrows := st.metrics.activeEscrows - 1
          totalRefunded := st.metrics.totalRefunded + 1 }
    ({ st with escrow := e, metrics := updateAverageHoldTime now e m1 }, true)

/-- `initiateDispute`: a `"held"` escrow disputed by depositor or
beneficiary becomes `"disputed"`; an already-recorded dispute is
returned unchanged. -/
def initiateDispute (now : Nat) (initiatedBy reason : String) (evidence : List String)
    (st : EscrowState) : EscrowState × Option EscrowDispute :=
  if st.escrow.status ≠ .held then (st, none)
  else if initiatedBy ≠ st.escrow.depositor ∧ initiatedBy ≠ st.escrow.beneficiary then
    (st, none)
  else
    match st.dispute with
    | some d => (st, some d)
    | none =>
      let d : EscrowDispute :=
        { escrowId := st.escrow.id, initiatedBy, reason, evidence, createdAt := now }
      ({ escrow := { st.escrow with status := EscrowStatus.disputed }
         dispute := some d
         metrics := { st.metrics with totalDisputed := st.metrics.totalDisputed + 1 } },
       some d)

/-- `resolveDispute`: needs an active dispute and a `"disputed"` status;
the `"split"` branch of the source duplicates the `"release"` branch.
The source mutates the dispute record's `resolvedAt`/`resolution` and
then removes it from `activeDisputes`, so the per-id dispute slot
becomes `none`. -/
def resolveDispute (now : Nat) (resolution : DisputeResolution) (st : EscrowState) :
    EscrowState × Bool :=
  match st.dispute with
  | none => (st, false)
  | some _ =>
    if st.escrow.status ≠ .disputed then (st, false)
    else if resolution = .release then
      ({ escrow := { st.escrow with status := EscrowStatus.released, releasedAt := some now }
         dispute := none
         metrics :=
           { st.metrics with
               totalReleased := st.metrics.totalReleased + 1
               activeEscrows := st.metrics.activeEscrows - 1 } }, true)
    else if resolution = .refund then
      ({ escrow := { st.escrow with status := EscrowStatus.refunded, releasedAt := some now }
         dispute := none
         metrics :=
           { st.metrics with
               totalRefunded := st.metrics.totalRefunded + 1
               activeEscrows := st.metrics.activeEscrows - 1 } }, true)
    else
      ({ escrow := { st.escrow with status := EscrowStatus.released, releasedAt := some now }
         dispute := none
         metrics :=
           { st.metrics with
               totalReleased := st.metrics.totalReleased + 1
               activeEscrows := st.metrics.activeEscrows - 1 } }, true)

/-- The effect of `checkExpiredEscrows` on one escrow: a `"held"` escrow
past its expiry becomes `"expired"`.  Returns whether this id was swept. -/
def checkExpiredEscrow (now : Nat) (st : EscrowState) : EscrowState × Bool :=
  if st.escrow.status = .held ∧ st.escrow.expiresAt < now then
    ({ st with
        escrow := { st.escrow with status := EscrowStatus.expired }
        metrics := { st.metrics with activeEscrows := st.metrics.activeEscrows - 1 } },
     true)
  else (st, false)

/-- `extendEscrowExpiry`. -/
def extendEscrowExpiry (additionalMs : Nat) (st : EscrowState) : EscrowState × Bool :=
  if st.escrow.status ≠ .held then (st, false)
  else ({ st with escrow := { st.escrow with expiresAt := st.escrow.expiresAt + additionalMs } },
    true)

/-- Every exported operation that can write an existing escrow's state. -/
inductive EscrowOp
  | release (now : Nat) (authorizedBy : String)
  | refund (now : Nat) (reason : String)
  | dispute (now : Nat) (initiatedBy reason : String) (evidence : List String)
  | resolve (now : Nat) (resolution : DisputeResolution)
  | checkExpired (now : Nat)
  | extend (ms : Nat)

def applyEscrowOp : EscrowOp → EscrowState → EscrowState
  | .release now auth, st => (releaseEscrow now auth st).1
  | .refund now reason, st => (refundEscrow now reason st).1
  | .dispute now who reason ev, st => (initiateDispute now who reason ev st).1
  | .resolve now r, st => (resolveDispute now r st).1
  | .checkExpired now, st => (checkExpiredEscrow now st).1
  | .extend ms, st => (extendEscrowExpiry ms st).1

/-- Number of `releaseEscrow` calls in the sequence that return `true`. -/
def releaseSuccessCount : List EscrowOp → EscrowState → Nat
  | [], _ => 0
  | op :: ops, st =>
    (match op with
      | .release now auth => if (releaseEscrow now auth st).2 then 1 else 0
      | _ => 0)
      + releaseSuccessCount ops (applyEscrowOp op st)

/-- No escrow operation ever writes the status `"held"`: if an escrow is
`"held"` after an operation, it already was before. -/
theorem applyEscrowOp_held (op : EscrowOp) (st : EscrowState)
    (h : (applyEscrowOp op st).escrow.status = .held) : st.escrow.status = .held := by
  cases op with
  | release now auth =>
    simp only [applyEscrowOp] at h
    unfold releaseEscrow at h
    split at h
    · exact h
    · split at h
      · exact h
      · exact EscrowStatus.noConfusion h
  | refund now reason =>
    simp only [applyEscrowOp] at h
    unfold refundEscrow at h
    split at h
    · exact h
    · exact EscrowStatus.noConfusion h
  | dispute now who reason ev =>
    simp only [applyEscrowOp] at h
    unfold initiateDispute at h
    split at h
    · exact h
    · split at h
      · exact h
      · split at h
        · exact h
        · exact EscrowStatus.noConfusion h
  | resolve now r =>
    simp only [applyEscrowOp] at h
    unfold resolveDispute at h
    split at h
    · exact h
    · split at h
      · exact h
      · split at h
        · exact EscrowStatus.noConfusion h
        · split at h
          · exact EscrowStatus.noConfusion h
          · exact EscrowStatus.noConfusion h
  | checkExpired now =>
    simp only [applyEscrowOp] at h
    unfold checkExpiredEscrow at h
    split at h
    · exact EscrowStatus.noConfusion h
    · exact h
  | extend ms =>
    simp only [applyEscrowOp] at h
    unfold extendEscrowExpiry at h
    split at h
    · exact h
    · exact h

/-- `releaseEscrow` refuses an escrow that is not `"held"`. -/
theorem releaseEscrow_not_held (now : Nat) (auth : String) (st : EscrowState)
    (h : st.escrow.status ≠ .held) : releaseEscrow now auth st = (st, false) := by
  unfold releaseEscrow
  rw [if_pos h]

/-- A successful `releaseEscrow` leaves the escrow `"released"`. -/
theorem releaseEscrow_success_status (now : Nat) (auth : String) (st : EscrowState)
    (h : (releaseEscrow now auth st).2 = true) :
    (releaseEscrow now auth st).1.escrow.status = .released := by
  unfold releaseEscrow at h ⊢
  split at h
  · exact Bool.noConfusion h
  · rename_i h1
    split at h
    · exact Bool.noConfusion h
    · rename_i h2
      rw [if_neg h1, if_neg h2]

/-- Once the escrow has left `"held"`, no later `releaseEscrow` in a
sequence of operations succeeds. -/
theorem releaseSuccessCount_of_not_held (ops : List EscrowOp) (st : EscrowState)
    (h : st.escrow.status ≠ .held) : releaseSuccessCount ops st = 0 := by
  induction ops generalizing st with
  | nil => rfl
  | cons op ops ih =>
    have h2 : (applyEscrowOp op st).escrow.status ≠ .held :=
      fun hh => h (applyEscrowOp_held op st hh)
    have hrest := ih (applyEscrowOp op st) h2
    cases op with
    | release now auth =>
      have hfail : releaseEscrow now auth st = (st, false) :=
        releaseEscrow_not_held now auth st h
      have hstep : releaseSuccessCount (EscrowOp.release now auth :: ops) st
          = (if (releaseEscrow now auth st).2 then 1 else 0)
            + releaseSuccessCount ops (applyEscrowOp (.release now auth) st) := rfl
      rw [hstep, hfail, hrest]
      rfl
    | refund now reason => simpa only [releaseSuccessCount, Nat.zero_add] using hrest
    | dispute now who reason ev => simpa only [releaseSuccessCount, Nat.zero_add] using hrest
    | resolve now r => simpa only [releaseSuccessCount, Nat.zero_add] using hrest
    | checkExpired now => simpa only [releaseSuccessCount, Nat.zero_add] using hrest
    | extend ms => simpa only [releaseSuccessCount, Nat.zero_add] using hrest

/-- Over any operation sequence, `releaseEscrow` succeeds at most once
on a given escrow. -/
theorem releaseSuccessCount_le_one (ops : List EscrowOp) (st : EscrowState) :
    releaseSuccessCount ops st ≤ 1 := by
  induction ops generalizing st with
  | nil => exact Nat.zero_le 1
  | cons op ops ih =>
    cases op with
    | release now auth =>
      have hstep : releaseSuccessCount (EscrowOp.release now auth :: ops) st
          = (if (releaseEscrow now auth st).2 then 1 else 0)
            + releaseSuccessCount ops (applyEscrowOp (.release now auth) st) := rfl
      by_cases hsucc : (releaseEscrow now auth st).2 = true
      · have hrel := releaseEscrow_success_status now auth st hsucc
        have hne : (applyEscrowOp (.release now auth) st).escrow.status ≠ .held := by
          show (releaseEscrow now auth st).1.escrow.status ≠ .held
          rw [hrel]
          decide
        have hrest := releaseSuccessCount_of_not_held ops _ hne
        rw [hstep, hsucc, hrest]
        decide
      · rw [Bool.not_eq_true] at hsucc
        rw [hstep, hsucc]
        simpa using ih _
    | refund now reason => simpa only [releaseSuccessCount, Nat.zero_add] using ih _
    | dispute now who reason ev => simpa only [releaseSuccessCount, Nat.zero_add] using ih _
    | resolve now r => simpa only [releaseSuccessCount, Nat.zero_add] using ih _
    | checkExpired now => simpa only [releaseSuccessCount, Nat.zero_add] using ih _
    | extend ms => simpa only [releaseSuccessCount, Nat.zero_add] using ih _

/-- C3: `releaseEscrow` by anyone other than the recorded depositor
returns `false` and leaves the state untouched; a successful release
leaves the escrow `"released"`; and over any sequence of escrow
operations, `releaseEscrow` returns `true` at most once per escrow. -/
theorem releaseEscrow_depositor_only_and_once :
    (∀ (now : Nat) (auth : String) (st : EscrowState),
      auth ≠ st.escrow.depositor → releaseEscrow now auth st = (st, false)) ∧
    (∀ (now : Nat) (auth : String) (st : EscrowState),
      (releaseEscrow now auth st).2 = true →
      (releaseEscrow now auth st).1.escrow.status = .released) ∧
    (∀ (ops : List EscrowOp) (st : EscrowState), releaseSuccessCount ops st ≤ 1) := by
  refine ⟨?_, releaseEscrow_success_status, releaseSuccessCount_le_one⟩
  intro now auth st hauth
  unfold releaseEscrow
  split
  · rfl
  · rfl

/-- A sample metrics record. -/
def metricsZero : EscrowMetrics :=
  { totalEscrows := 0, activeEscrows := 0, totalReleased := 0, totalRefunded := 0
    totalDisputed := 0, totalFeesCollected := 0, averageHoldTime := 0 }

/-- A concrete `"held"` escrow, depositor `"dep"`. -/
def escrowHeldEx : EscrowState :=
  { escrow :=
      { id := "e1", depositor := "dep", beneficiary := "ben", amount := 10
        fee := 1/20, status := .held, createdAt := 0, expiresAt := 86400000
        releaseCondition := "cond" }
    metrics := metricsZero }

theorem releaseEscrow_depositor_only_and_once_witness :
    releaseEscrow 5 "eve" escrowHeldEx = (escrowHeldEx, false) ∧
    (releaseEscrow 5 "dep" escrowHeldEx).1.escrow.status = .released ∧
    releaseSuccessCount [.release 5 "dep", .release 6 "dep"] escrowHeldEx ≤ 1 :=
  ⟨releaseEscrow_depositor_only_and_once.1 5 "eve" escrowHeldEx (by decide),
   releaseEscrow_depositor_only_and_once.2.1 5 "dep" escrowHeldEx (by decide),
   releaseEscrow_depositor_only_and_once.2.2 [.release 5 "dep", .release 6 "dep"] escrowHeldEx⟩

/-- A concrete `"disputed"` escrow with its active dispute record. -/
def escrowDisputedEx : EscrowState :=
  { escrow :=
      { id := "e2", depositor := "dep", beneficiary := "ben", amount := 10
        fee := 1/20, status := .disputed, createdAt := 0, expiresAt := 86400000
        releaseCondition := "cond" }
    dispute := some
      { escrowId := "e2", initiatedBy := "ben", reason := "slow", evidence := []
        createdAt := 1 }
    metrics :=
      { totalEscrows := 1, activeEscrows := 1, totalReleased := 0, totalRefunded := 0
        totalDisputed := 1, totalFeesCollected := 0, averageHoldTime := 0 } }

/-- C4 counterexample: a `"disputed"` escrow is not frozen —
`refundEscrow` succeeds on it and moves it straight to `"refunded"`
without any dispute resolution. -/
theorem disputed_frozen_cex :
    (refundEscrow 7 "late" escrowDisputedEx).2 = true ∧
    (refundEscrow 7 "late" escrowDisputedEx).1.escrow.status = .refunded := by
  constructor <;> rfl

/-- C4 (amended): on a `"disputed"` escrow, `releaseEscrow` and the
expiry sweep change nothing, and the only operations that can move a
disputed escrow's status are `resolveDispute` and `refundEscrow`. -/
theorem disputed_frozen_amended :
    (∀ (now : Nat) (auth : String) (st : EscrowState),
      st.escrow.status = .disputed → releaseEscrow now auth st = (st, false)) ∧
    (∀ (now : Nat) (st : EscrowState),
      st.escrow.status = .disputed → checkExpiredEscrow now st = (st, false)) ∧
    (∀ (op : EscrowOp) (st : EscrowState),
      st.escrow.status = .disputed →
      (applyEscrowOp op st).escrow.status ≠ .disputed →
      (∃ now r, op = .resolve now r) ∨ (∃ now reason, op = .refund now reason)) := by
  refine ⟨?_, ?_, ?_⟩
  · intro now auth st hd
    exact releaseEscrow_not_held now auth st (by rw [hd]; decide)
  · intro now st hd
    unfold checkExpiredEscrow
    rw [if_neg]
    intro hc
    rw [hd] at hc
    exact absurd hc.1 (by decide)
  · intro op st hd hchange
    cases op with
    | release now auth =>
      have : applyEscrowOp (.release now auth) st = st := by
        show (releaseEscrow now auth st).1 = st
        rw [releaseEscrow_not_held now auth st (by rw [hd]; decide)]
      rw [this] at hchange
      exact absurd hd hchange
    | refund now reason => exact Or.inr ⟨now, reason, rfl⟩
    | dispute now who reason ev =>
      have : applyEscrowOp (.dispute now who reason ev) st = st := by
        show (initiateDispute now who reason ev st).1 = st
        unfold initiateDispute
        rw [if_pos (by rw [hd]; decide)]
      rw [this] at hchange
      exact absurd hd hchange
    | resolve now r => exact Or.inl ⟨now, r, rfl⟩
    | checkExpired now =>
      have : applyEscrowOp (.checkExpired now) st = st := by
        show (checkExpiredEscrow now st).1 = st
        unfold checkExpiredEscrow
        rw [if_neg]
        intro hc
        rw [hd] at hc
        exact absurd hc.1 (by decide)
      rw [this] at hchange
      exact absurd hd hchange
    | extend ms =>
      have : applyEscrowOp (.extend ms) st = st := by
        show (extendEscrowExpiry ms st).1 = st
        unfold extendEscrowExpiry
        rw [if_pos (by rw [hd]; decide)]
      rw [this] at hchange
      exact absurd hd hchange

theorem disputed_frozen_amended_witness :
    releaseEscrow 9 "dep" escrowDisputedEx = (escrowDisputedEx, false) ∧
    checkExpiredEscrow 99999999 escrowDisputedEx = (escrowDisputedEx, false) ∧
    ((∃ now r, EscrowOp.refund 7 "late" = .resolve now r) ∨
      (∃ now reason, EscrowOp.refund 7 "late" = .refund now reason)) :=
  ⟨disputed_frozen_amended.1 9 "dep" escrowDisputedEx (by decide),
   disputed_frozen_amended.2.1 99999999 escrowDisputedEx (by decide),
   disputed_frozen_amended.2.2 (.refund 7 "late") escrowDisputedEx (by decide) (by decide)⟩

/-- C5: resolving a dispute with `"split"` succeeds, releases the
escrow, bumps `totalReleased`, and yields exactly the same resulting
state as the `"release"` resolution. -/
theorem resolveDispute_split_is_release :
    ∀ (now : Nat) (st : EscrowState) (d : EscrowDispute),
      st.dispute = some d → st.escrow.status = .disputed →
      (resolveDispute now .split st).2 = true ∧
      (resolveDispute now .split st).1.escrow.status = .released ∧
      (resolveDispute now .split st).1.metrics.totalReleased
        = st.metrics.totalReleased + 1 ∧
      resolveDispute now .split st = resolveDispute now .release st := by
  intro now st d hdisp hstatus
  unfold resolveDispute
  rw [hdisp]
  simp only [if_neg (by rw [hstatus]; decide : ¬st.escrow.status ≠ EscrowStatus.disputed)]
  rw [if_neg (show ¬(DisputeResolution.split = DisputeResolution.release) from by decide)]
  rw [if_neg (show ¬(DisputeResolution.split = DisputeResolution.refund) from by decide)]
  exact ⟨rfl, rfl, rfl, rfl⟩

theorem resolveDispute_split_is_release_witness :
    (resolveDispute 8 .split escrowDisputedEx).2 = true ∧
    (resolveDispute 8 .split escrowDisputedEx).1.escrow.status = .released ∧
    (resolveDispute 8 .split escrowDisputedEx).1.metrics.totalReleased
      = escrowDisputedEx.metrics.totalReleased + 1 ∧
    resolveDispute 8 .split escrowDisputedEx = resolveDispute 8 .release escrowDisputedEx :=
  resolveDispute_split_is_release 8 escrowDisputedEx
    { escrowId := "e2", initiatedBy := "ben", reason := "slow", evidence := []
      createdAt := 1 }
    (by decide) (by decide)

/-- C9: for valid distinct base58 addresses, `createEscrow` with amount
10 yields a `"held"` escrow whose fee is 0.05 = 0.5% of 10 and bumps
`activeEscrows`; refunding it then succeeds, marks it `"refunded"` and
takes `activeEscrows` back down by exactly one. -/
theorem escrow_example_end_to_end :
    ∀ (A B id cond reason : String) (now later : Nat) (m : EscrowMetrics),
      validateSolanaAddress A = true → validateSolanaAddress B = true → A ≠ B →
      ∃ (e : EscrowAccount) (m2 : EscrowMetrics),
        createEscrow now id A B 10 cond ESCROW_EXPIRY_MS m = some (e, m2) ∧
        e.status = .held ∧
        e.fee = 1/20 ∧
        m2.activeEscrows = m.activeEscrows + 1 ∧
        (refundEscrow later reason { escrow := e, metrics := m2 }).2 = true ∧
        (refundEscrow later reason { escrow := e, metrics := m2 }).1.escrow.status
          = .refunded ∧
        (refundEscrow later reason { escrow := e, metrics := m2 }).1.metrics.activeEscrows
          = m2.activeEscrows - 1 := by
  intro A B id cond reason now later m hA hB hAB
  unfold createEscrow
  rw [if_neg (by rw [hA, hB]; exact not_not_intro rfl),
    if_neg (by unfold MIN_ESCROW_AMOUNT MAX_ESCROW_AMOUNT; push_neg; norm_num),
    if_neg hAB]
  refine ⟨_, _, rfl, rfl, ?_, rfl, ?_, ?_, ?_⟩
  · show calculateEscrowFee 10 = 1/20
    unfold calculateEscrowFee ESCROW_FEE_PERCENT
    norm_num
  · unfold refundEscrow
    rw [if_neg (by intro hc; exact absurd rfl hc.1)]
  · unfold refundEscrow
    rw [if_neg (by intro hc; exact absurd rfl hc.1)]
  · unfold refundEscrow
    rw [if_neg (by intro hc; exact absurd rfl hc.1)]
    rfl

/-- A valid 32-character base58 depositor address. -/
def addrA : String := "aaaaaaaaaaaaaaaaaaaaaaaaaaaaaaaa"

/-- A valid 32-character base58 beneficiary address. -/
def addrB : String := "bbbbbbbbbbbbbbbbbbbbbbbbbbbbbbbb"

theorem escrow_example_end_to_end_witness :
    ∃ (e : EscrowAccount) (m2 : EscrowMetrics),
      createEscrow 0 "e9" addrA addrB 10 "cond" ESCROW_EXPIRY_MS metricsZero
        = some (e, m2) ∧
      e.status = .held ∧
      e.fee = 1/20 ∧
      m2.activeEscrows = metricsZero.activeEscrows + 1 ∧
      (refundEscrow 50 "r" { escrow := e, metrics := m2 }).2 = true ∧
      (refundEscrow 50 "r" { escrow := e, metrics := m2 }).1.escrow.status = .refunded ∧
      (refundEscrow 50 "r" { escrow := e, metrics := m2 }).1.metrics.activeEscrows
        = m2.activeEscrows - 1 :=
  escrow_example_end_to_end addrA addrB "e9" "cond" "r" 0 50 metricsZero
    (by decide) (by decide) (by decide)

/-! ## Rate limiter (`x402-ratelimit.ts`)

Buckets are keyed by `wallet:type`; the claims are per bucket key, so
the state is the `Option RateLimitBucket` stored under one key.
Subtractions of timestamps are done in `ℤ` to mirror JS number
arithmetic. -/

def WINDOW_SIZE_MS : Nat := 60000
def MAX_REQUESTS_PER_WINDOW : Nat := 100
def MAX_PAYMENTS_PER_WINDOW : Nat := 20
def MAX_EXECUTIONS_PER_WINDOW : Nat := 50
def COOLDOWN_PERIOD_MS : Nat := 300000

inductive RateLimitType
  | request
  | payment
  | execution
deriving DecidableEq

def getMaxForType : RateLimitType → Nat
  | .request => MAX_REQUESTS_PER_WINDOW
  | .payment => MAX_PAYMENTS_PER_WINDOW
  | .execution => MAX_EXECUTIONS_PER_WINDOW

structure RateLimitBucket where
  walletAddress : String
  type : RateLimitType
  windowStart : Nat
  count : Nat
  blocked : Bool
  blockedUntil : Option Nat := none
  violations : Nat
deriving DecidableEq

structure RateLimitResult where
  allowed : Bool
  remaining : Nat
  resetIn : Int
deriving DecidableEq

/-- The shared window-rollover step of `checkRateLimit`/`recordUsage`:
a missing bucket, or one whose window has elapsed, is replaced by a
fresh bucket carrying over the violation counter. -/
def rollBucket (walletAddress : String) (type : RateLimitType) (now : Nat)
    (st : Option RateLimitBucket) : RateLimitBucket :=
  match st with
  | some b =>
    if (WINDOW_SIZE_MS : Int) ≤ (now : Int) - b.windowStart then
      { walletAddress, type, windowStart := now, count := 0, blocked := false
        violations := b.violations }
    else b
  | none =>
    { walletAddress, type, windowStart := now, count := 0, blocked := false
      violations := 0 }

/-- The tail of `checkRateLimit` after the block check. -/
def checkRateLimitFresh (walletAddress : String) (type : RateLimitType) (now : Nat)
    (st : Option RateLimitBucket) : Option RateLimitBucket × RateLimitResult :=
  let bucket := rollBucket walletAddress type now st
  let max := getMaxForType type
  (some bucket,
   { allowed := decide (bucket.count < max)
     remaining := max - bucket.count
     resetIn := (WINDOW_SIZE_MS : Int) - ((now : Int) - bucket.windowStart) })

/-- `checkRateLimit`: an active block short-circuits to denied; an
expired block is lifted before the usual window check. -/
def checkRateLimit (walletAddress : String) (type : RateLimitType) (now : Nat)
    (st : Option RateLimitBucket) : Option RateLimitBucket × RateLimitResult :=
  match st with
  | some b =>
    match b.blocked, b.blockedUntil with
    | true, some bu =>
      if now < bu then
        (some b, { allowed := false, remaining := 0, resetIn := (bu : Int) - now })
      else
        checkRateLimitFresh walletAddress type now
          (some { b with blocked := false, blockedUntil := none })
    | _, _ => checkRateLimitFresh walletAddress type now (some b)
  | none => checkRateLimitFresh walletAddress type now none

/-- `recordUsage` restricted to the bucket it touches: at the ceiling
the call is rejected and counts a violation (the third one installs a
block for the cooldown period); below it the window counter advances. -/
def recordUsage (walletAddress : String) (type : RateLimitType) (now : Nat)
    (st : Option RateLimitBucket) : Option RateLimitBucket × Bool :=
  let bucket := rollBucket walletAddress type now st
  let max := getMaxForType type
  if max ≤ bucket.count then
    let v := bucket.violations + 1
    if 3 ≤ v then
      (some { bucket with
          violations := v
          blocked := true
          blockedUntil := some (now + COOLDOWN_PERIOD_MS) }, false)
    else
      (some { bucket with violations := v }, false)
  else
    (some { bucket with count := bucket.count + 1 }, true)

/-- The two exported operations that touch a bucket. -/
inductive RateLimitOp
  | record (now : Nat)
  | check (now : Nat)

def applyRateLimitOp (w : String) (t : RateLimitType) :
    RateLimitOp → Option RateLimitBucket → Option RateLimitBucket
  | .record now, st => (recordUsage w t now st).1
  | .check now, st => (checkRateLimit w t now st).1

def runRateLimitOps (w : String) (t : RateLimitType) (ops : List RateLimitOp)
    (st : Option RateLimitBucket) : Option RateLimitBucket :=
  ops.foldl (fun s op => applyRateLimitOp w t op s) st

def bucketCount : Option RateLimitBucket → Nat
  | some b => b.count
  | none => 0

/-- The window counter stays at or below the ceiling across both
operations. -/
theorem bucketCount_le_max (w : String) (t : RateLimitType) (op : RateLimitOp)
    (st : Option RateLimitBucket) (h : bucketCount st ≤ getMaxForType t) :
    bucketCount (applyRateLimitOp w t op st) ≤ getMaxForType t := by
  have hroll : ∀ now, bucketCount (some (rollBucket w t now st)) ≤ getMaxForType t := by
    intro now
    unfold rollBucket
    match st with
    | some b =>
      simp only
      split
      · exact Nat.zero_le _
      · exact h
    | none => exact Nat.zero_le _
  cases op with
  | record now =>
    show bucketCount (recordUsage w t now st).1 ≤ getMaxForType t
    unfold recordUsage
    simp only
    split
    · rename_i hge
      split
      · exact hroll now
      · exact hroll now
    · rename_i hlt
      rw [Nat.not_le] at hlt
      show (rollBucket w t now st).count + 1 ≤ getMaxForType t
      exact hlt
  | check now =>
    show bucketCount (checkRateLimit w t now st).1 ≤ getMaxForType t
    unfold checkRateLimit
    match st with
    | some b =>
      simp only
      match hb : b.blocked, hbu : b.blockedUntil with
      | true, some bu =>
        simp only
        split
        · exact h
        · show bucketCount (some (rollBucket w t now (some _))) ≤ getMaxForType t
          unfold rollBucket
          simp only
          split
          · exact Nat.zero_le _
          · exact h
      | true, none => exact hroll now
      | false, some bu => exact hroll now
      | false, none => exact hroll now
    | none => exact Nat.zero_le _

/-- C6: starting from an empty bucket, no interleaving of `recordUsage`
and `checkRateLimit` pushes the window count past the per-type ceiling,
and whenever the count has reached the ceiling inside the current
window, `checkRateLimit` answers `allowed = false`. -/
theorem rate_limit_ceiling (w : String) (t : RateLimitType) :
    (∀ ops : List RateLimitOp,
      bucketCount (runRateLimitOps w t ops none) ≤ getMaxForType t) ∧
    (∀ (now : Nat) (b : RateLimitBucket),
      getMaxForType t ≤ b.count →
      (now : Int) - b.windowStart < WINDOW_SIZE_MS →
      (checkRateLimit w t now (some b)).2.allowed = false) := by
  constructor
  · intro ops
    have : ∀ st, bucketCount st ≤ getMaxForType t →
        bucketCount (runRateLimitOps w t ops st) ≤ getMaxForType t := by
      induction ops with
      | nil => intro st h; exact h
      | cons op ops ih =>
        intro st h
        exact ih _ (bucketCount_le_max w t op st h)
    exact this none (Nat.zero_le _)
  · intro now b hcount hwin
    have hfresh : ∀ b2 : RateLimitBucket,
        getMaxForType t ≤ b2.count →
        (now : Int) - b2.windowStart < WINDOW_SIZE_MS →
        (checkRateLimitFresh w t now (some b2)).2.allowed = false := by
      intro b2 hcnt hwn
      simp only [checkRateLimitFresh, rollBucket, decide_eq_false_iff_not, Nat.not_lt]
      rw [if_neg (by omega)]
      exact hcnt
    obtain ⟨bw, bt, bws, bc, bbl, bbu, bv⟩ := b
    have hc2 : getMaxForType t ≤ bc := hcount
    have hw2 : (now : Int) - bws < WINDOW_SIZE_MS := hwin
    cases bbl with
    | false =>
      cases bbu with
      | none => exact hfresh _ hc2 hw2
      | some bu => exact hfresh _ hc2 hw2
    | true =>
      cases bbu with
      | none => exact hfresh _ hc2 hw2
      | some bu =>
        show (checkRateLimit w t now (some ⟨bw, bt, bws, bc, true, some bu, bv⟩)).2.allowed
          = false
        simp only [checkRateLimit]
        split
        · rfl
        · exact hfresh _ hc2 hw2

/-- A bucket sitting exactly at the payment ceiling. -/
def bucketAtCeiling : RateLimitBucket :=
  { walletAddress := "w1", type := .payment, windowStart := 0, count := 20
    blocked := false, violations := 0 }

theorem rate_limit_ceiling_witness :
    bucketCount
      (runRateLimitOps "w1" .payment
        [.record 1, .record 2, .check 3] none) ≤ getMaxForType .payment ∧
    (checkRateLimit "w1" .payment 5 (some bucketAtCeiling)).2.allowed = false :=
  ⟨(rate_limit_ceiling "w1" .payment).1 [.record 1, .record 2, .check 3],
   (rate_limit_ceiling "w1" .payment).2 5 bucketAtCeiling (by decide) (by decide)⟩

/-- Inside the current window the rollover step keeps the bucket. -/
theorem rollBucket_stay (w : String) (t : RateLimitType) (now : Nat)
    (b : RateLimitBucket) (h : (now : Int) - b.windowStart < WINDOW_SIZE_MS) :
    rollBucket w t now (some b) = b := by
  simp only [rollBucket]
  rw [if_neg (by omega)]

/-- An over-ceiling `recordUsage` below the third violation: rejected,
violation counter bumped to `v2`. -/
theorem recordUsage_violation (w : String) (t : RateLimitType) (now : Nat)
    (b : RateLimitBucket) (v2 : Nat)
    (hwin : (now : Int) - b.windowStart < WINDOW_SIZE_MS)
    (hcount : getMaxForType t ≤ b.count)
    (hv : v2 = b.violations + 1) (hlow : v2 < 3) :
    recordUsage w t now (some b) = (some { b with violations := v2 }, false) := by
  simp only [recordUsage]
  rw [rollBucket_stay w t now b hwin]
  rw [if_pos hcount]
  rw [← hv]
  rw [if_neg (by omega)]

/-- The over-ceiling `recordUsage` that reaches three violations:
rejected and the bucket is blocked for the cooldown period. -/
theorem recordUsage_blocks (w : String) (t : RateLimitType) (now : Nat)
    (b : RateLimitBucket) (v2 : Nat)
    (hwin : (now : Int) - b.windowStart < WINDOW_SIZE_MS)
    (hcount : getMaxForType t ≤ b.count)
    (hv : v2 = b.violations + 1) (hhigh : 3 ≤ v2) :
    recordUsage w t now (some b)
      = (some { b with
          violations := v2
          blocked := true
          blockedUntil := some (now + COOLDOWN_PERIOD_MS) }, false) := by
  simp only [recordUsage]
  rw [rollBucket_stay w t now b hwin]
  rw [if_pos hcount]
  rw [← hv]
  rw [if_pos hhigh]

/-- C7: three consecutive over-ceiling `recordUsage` calls inside one
window are each rejected, and the third installs a block whose
`blockedUntil` is exactly its call time plus the 300000 ms cooldown;
while the block lasts `checkRateLimit` denies, and the first access at
or after `blockedUntil` clears the blocked flag. -/
theorem three_violations_block (w : String) (t : RateLimitType)
    (b : RateLimitBucket) (t1 t2 t3 : Nat)
    (hcount : getMaxForType t ≤ b.count) (hviol : b.violations = 0)
    (h1 : (t1 : Int) - b.windowStart < WINDOW_SIZE_MS)
    (h2 : (t2 : Int) - b.windowStart < WINDOW_SIZE_MS)
    (h3 : (t3 : Int) - b.windowStart < WINDOW_SIZE_MS) :
    (recordUsage w t t1 (some b)).2 = false ∧
    (recordUsage w t t2 (recordUsage w t t1 (some b)).1).2 = false ∧
    (recordUsage w t t3 (recordUsage w t t2 (recordUsage w t t1 (some b)).1).1).2
      = false ∧
    ∃ b3 : RateLimitBucket,
      (recordUsage w t t3 (recordUsage w t t2 (recordUsage w t t1 (some b)).1).1).1
        = some b3 ∧
      b3.blocked = true ∧
      b3.blockedUntil = some (t3 + COOLDOWN_PERIOD_MS) ∧
      (∀ now : Nat, now < t3 + COOLDOWN_PERIOD_MS →
        (checkRateLimit w t now (some b3)).2.allowed = false) ∧
      (∀ now : Nat, t3 + COOLDOWN_PERIOD_MS ≤ now →
        ∀ b4 : RateLimitBucket, (checkRateLimit w t now (some b3)).1 = some b4 →
          b4.blocked = false) := by
  have e1 : recordUsage w t t1 (some b) = (some { b with violations := 1 }, false) :=
    recordUsage_violation w t t1 b 1 h1 hcount (by omega) (by omega)
  have e2 : recordUsage w t t2 (some { b with violations := 1 })
      = (some { { b with violations := 1 } with violations := 2 }, false) :=
    recordUsage_violation w t t2 { b with violations := 1 } 2 h2 hcount rfl (by omega)
  have e3 : recordUsage w t t3 (some { { b with violations := 1 } with violations := 2 })
      = (some { { { b with violations := 1 } with violations := 2 } with
          violations := 3
          blocked := true
          blockedUntil := some (t3 + COOLDOWN_PERIOD_MS) }, false) :=
    recordUsage_blocks w t t3 _ 3 h3 hcount rfl (by omega)
  refine ⟨by rw [e1], ?_, ?_, ?_⟩
  · simp only [e1, e2]
  · simp only [e1, e2, e3]
  · simp only [e1, e2, e3]
    refine ⟨_, rfl, rfl, rfl, ?_, ?_⟩
    · intro now hnow
      simp only [checkRateLimit]
      rw [if_pos hnow]
    · intro now hnow b4 hb4
      simp only [checkRateLimit] at hb4
      rw [if_neg (by omega)] at hb4
      simp only [checkRateLimitFresh] at hb4
      rw [Option.some_inj] at hb4
      subst hb4
      simp only [rollBucket]
      split
      · rfl
      · rfl

/-- A bucket at the payment ceiling with no prior violations. -/
def bucketForBlock : RateLimitBucket :=
  { walletAddress := "w2", type := .payment, windowStart := 100, count := 20
    blocked := false, violations := 0 }

theorem three_violations_block_witness :
    (recordUsage "w2" .payment 110 (some bucketForBlock)).2 = false ∧
    (recordUsage "w2" .payment 120
      (recordUsage "w2" .payment 110 (some bucketForBlock)).1).2 = false ∧
    (recordUsage "w2" .payment 130
      (recordUsage "w2" .payment 120
        (recordUsage "w2" .payment 110 (some bucketForBlock)).1).1).2 = false ∧
    ∃ b3 : RateLimitBucket,
      (recordUsage "w2" .payment 130
        (recordUsage "w2" .payment 120
          (recordUsage "w2" .payment 110 (some bucketForBlock)).1).1).1 = some b3 ∧
      b3.blocked = true ∧
      b3.blockedUntil = some (130 + COOLDOWN_PERIOD_MS) ∧
      (∀ now : Nat, now < 130 + COOLDOWN_PERIOD_MS →
        (checkRateLimit "w2" .payment now (some b3)).2.allowed = false) ∧
      (∀ now : Nat, 130 + COOLDOWN_PERIOD_MS ≤ now →
        ∀ b4 : RateLimitBucket,
          (checkRateLimit "w2" .payment now (some b3)).1 = some b4 →
          b4.blocked = false) :=
  three_violations_block "w2" .payment bucketForBlock 110 120 130
    (by decide) (by decide) (by decide) (by decide) (by decide)

/-! ## Dynamic pricing (`x402-pricing.ts`)

Per-agent state is the `AgentPricing` record plus its `DemandMetrics`
entry; discount rules and wallet volume enter `calculatePrice` as
explicit arguments.  JS `||` defaulting (which also replaces `0`) is
modelled explicitly. -/

def BASE_PRICE_LAMPORTS : ℚ := 100000
def MIN_PRICE_MULTIPLIER : ℚ := 1/2
def MAX_PRICE_MULTIPLIER : ℚ := 3
def PRICE_UPDATE_INTERVAL_MS : Nat := 60000
def DEMAND_WINDOW_MS : Nat := 300000

inductive PricingTier
  | free
  | basic
  | standard
  | premium
  | enterprise
deriving DecidableEq

inductive PricingModel
  | per_request
  | per_token
  | per_minute
  | flat_rate
deriving DecidableEq

def tierMultiplierOf : PricingTier → ℚ
  | .free => 0
  | .basic => 1
  | .standard => 3/2
  | .premium => 5/2
  | .enterprise => 4

/-- `modelDefaults`; `per_token` is `Math.floor(100000 / 1000) = 100`. -/
def modelDefaultOf : PricingModel → ℚ
  | .per_request => BASE_PRICE_LAMPORTS
  | .per_token => 100
  | .per_minute => BASE_PRICE_LAMPORTS * 10
  | .flat_rate => BASE_PRICE_LAMPORTS * 100

structure AgentPricing where
  agentId : String
  basePrice : ℚ
  model : PricingModel
  tier : PricingTier
  dynamicPricing : Bool
  currentMultiplier : ℚ
  lastUpdated : Nat
deriving DecidableEq

structure DemandMetrics where
  agentId : String
  requestCount : Nat
  windowStart : Nat
  peakRequests : Nat
  averageRequests : ℚ
deriving DecidableEq

/-- JS `x || d` on a numeric option: an absent or zero value falls back
to the default. -/
def jsOrQ (x : Option ℚ) (d : ℚ) : ℚ :=
  match x with
  | some p => if p = 0 then d else p
  | none => d

/-- `registerAgentPricing`: tier defaults to standard, model to
per_request, `dynamicPricing` to anything other than literal `false`,
multiplier to 1.0; the demand window restarts empty. -/
def registerAgentPricing (now : Nat) (agentId : String)
    (basePrice : Option ℚ) (model : Option PricingModel) (tier : Option PricingTier)
    (dynamicPricing : Option Bool) : AgentPricing × DemandMetrics :=
  let m := model.getD .per_request
  ({ agentId
     basePrice := jsOrQ basePrice (modelDefaultOf m)
     model := m
     tier := tier.getD .standard
     dynamicPricing := dynamicPricing.getD true
     currentMultiplier := 1
     lastUpdated := now },
   { agentId
     requestCount := 0
     windowStart := now
     peakRequests := 0
     averageRequests := 0 })

/-- The `demandRatio` local of `updateDynamicPricing`: current window
count over the running average, defaulting to 1 when there is no
average yet. -/
def demandQuotOf (dm : DemandMetrics) : ℚ :=
  if 0 < dm.averageRequests then (dm.requestCount : ℚ) / dm.averageRequests else 1

/-- The `newMultiplier` local of `updateDynamicPricing`: +10% capped at
3.0 above quotient 1.5, −5% floored at 0.5 below quotient 0.5. -/
def nudgeMultiplier (c q : ℚ) : ℚ :=
  if 3/2 < q then min MAX_PRICE_MULTIPLIER (c * (11/10))
  else if q < 1/2 then max MIN_PRICE_MULTIPLIER (c * (19/20))
  else c

/-- `updateDynamicPricing`: at most once per update interval, nudge the
multiplier by the demand quotient; only a changed multiplier is written
back (together with `lastUpdated`). -/
def updateDynamicPricing (now : Nat) (p : AgentPricing) (dm : DemandMetrics) :
    AgentPricing :=
  if ¬ p.dynamicPricing then p
  else if (now : Int) - p.lastUpdated < PRICE_UPDATE_INTERVAL_MS then p
  else if nudgeMultiplier p.currentMultiplier (demandQuotOf dm) ≠ p.currentMultiplier then
    { p with
        currentMultiplier := nudgeMultiplier p.currentMultiplier (demandQuotOf dm)
        lastUpdated := now }
  else p

/-- `recordRequest` restricted to one agent's state: roll the demand
window if elapsed, count the request, track the peak, then run the
dynamic-pricing update.  (The wallet-volume write touches a different
map and is irrelevant to the pricing record.) -/
def recordRequest (now : Nat) (p : AgentPricing) (dm : DemandMetrics) :
    AgentPricing × DemandMetrics :=
  let dm1 :=
    if (DEMAND_WINDOW_MS : Int) < (now : Int) - dm.windowStart then
      { dm with
          averageRequests := (dm.averageRequests + (dm.requestCount : ℚ)) / 2
          requestCount := 0
          windowStart := now }
    else dm
  let dm2 := { dm1 with requestCount := dm1.requestCount + 1 }
  let dm3 := { dm2 with peakRequests := max dm2.peakRequests dm2.requestCount }
  (updateDynamicPricing now p dm3, dm3)

/-- The update record accepted by `updateAgentPricing`. -/
structure PricingUpdates where
  basePrice : Option ℚ := none
  model : Option PricingModel := none
  tier : Option PricingTier := none
  dynamicPricing : Option Bool := none

/-- `updateAgentPricing`: overwrites the supplied fields and the
timestamp; never touches `currentMultiplier`. -/
def updateAgentPricing (now : Nat) (u : PricingUpdates) (p : AgentPricing) :
    AgentPricing :=
  { p with
      basePrice := u.basePrice.getD p.basePrice
      model := u.model.getD p.model
      tier := u.tier.getD p.tier
      dynamicPricing := u.dynamicPricing.getD p.dynamicPricing
      lastUpdated := now }

/-- The operations that can touch an agent's pricing state after
registration. -/
inductive PricingOp
  | register (now : Nat) (basePrice : Option ℚ) (model : Option PricingModel)
      (tier : Option PricingTier) (dynamicPricing : Option Bool)
  | record (now : Nat)
  | update (now : Nat) (u : PricingUpdates)

def applyPricingOp (agentId : String) :
    PricingOp → AgentPricing × DemandMetrics → AgentPricing × DemandMetrics
  | .register now bp m tr dyn, _ => registerAgentPricing now agentId bp m tr dyn
  | .record now, st => recordRequest now st.1 st.2
  | .update now u, st => (updateAgentPricing now u st.1, st.2)

def runPricingOps (agentId : String) (ops : List PricingOp)
    (st : AgentPricing × DemandMetrics) : AgentPricing × DemandMetrics :=
  ops.foldl (fun s op => applyPricingOp agentId op s) st

/-- The clamped nudge never leaves [0.5, 3]. -/
theorem nudgeMultiplier_bounds (c q : ℚ) (hlo : 1/2 ≤ c) (hhi : c ≤ 3) :
    1/2 ≤ nudgeMultiplier c q ∧ nudgeMultiplier c q ≤ 3 := by
  unfold nudgeMultiplier MAX_PRICE_MULTIPLIER MIN_PRICE_MULTIPLIER
  split
  · constructor
    · rw [le_min_iff]
      refine ⟨by norm_num, by nlinarith⟩
    · exact min_le_left 3 _
  · split
    · constructor
      · exact le_max_left (1/2) _
      · rw [max_le_iff]
        refine ⟨by norm_num, by nlinarith⟩
    · exact ⟨hlo, hhi⟩

/-- The multiplier bound invariant survives one dynamic-pricing update. -/
theorem updateDynamicPricing_bounds (now : Nat) (p : AgentPricing) (dm : DemandMetrics)
    (hlo : 1/2 ≤ p.currentMultiplier) (hhi : p.currentMultiplier ≤ 3) :
    1/2 ≤ (updateDynamicPricing now p dm).currentMultiplier ∧
    (updateDynamicPricing now p dm).currentMultiplier ≤ 3 := by
  unfold updateDynamicPricing
  split
  · exact ⟨hlo, hhi⟩
  · split
    · exact ⟨hlo, hhi⟩
    · split
      · exact nudgeMultiplier_bounds p.currentMultiplier (demandQuotOf dm) hlo hhi
      · exact ⟨hlo, hhi⟩

/-- The multiplier bound invariant survives every pricing operation. -/
theorem applyPricingOp_bounds (agentId : String) (op : PricingOp)
    (st : AgentPricing × DemandMetrics)
    (hlo : 1/2 ≤ st.1.currentMultiplier) (hhi : st.1.currentMultiplier ≤ 3) :
    1/2 ≤ (applyPricingOp agentId op st).1.currentMultiplier ∧
    (applyPricingOp agentId op st).1.currentMultiplier ≤ 3 := by
  cases op with
  | register now bp m tr dyn =>
    constructor
    · show (1 : ℚ)/2 ≤ 1
      norm_num
    · show (1 : ℚ) ≤ 3
      norm_num
  | record now =>
    exact updateDynamicPricing_bounds now st.1 _ hlo hhi
  | update now u =>
    exact ⟨hlo, hhi⟩

/-- C8: registration sets the demand multiplier to 1.0, and no sequence
of registrations, recorded requests (with their dynamic-pricing
updates) or manual pricing updates can push it outside [0.5, 3.0]. -/
theorem multiplier_stays_in_bounds (agentId : String) (now : Nat)
    (bp : Option ℚ) (m : Option PricingModel) (tr : Option PricingTier)
    (dyn : Option Bool) (ops : List PricingOp) :
    (registerAgentPricing now agentId bp m tr dyn).1.currentMultiplier = 1 ∧
    1/2 ≤ (runPricingOps agentId ops
      (registerAgentPricing now agentId bp m tr dyn)).1.currentMultiplier ∧
    (runPricingOps agentId ops
      (registerAgentPricing now agentId bp m tr dyn)).1.currentMultiplier ≤ 3 := by
  refine ⟨rfl, ?_⟩
  have hrun : ∀ (ops : List PricingOp) (st : AgentPricing × DemandMetrics),
      1/2 ≤ st.1.currentMultiplier → st.1.currentMultiplier ≤ 3 →
      1/2 ≤ (runPricingOps agentId ops st).1.currentMultiplier ∧
      (runPricingOps agentId ops st).1.currentMultiplier ≤ 3 := by
    intro ops
    induction ops with
    | nil => intro st hlo hhi; exact ⟨hlo, hhi⟩
    | cons op ops ih =>
      intro st hlo hhi
      have h2 := applyPricingOp_bounds agentId op st hlo hhi
      exact ih _ h2.1 h2.2
  exact hrun ops _ (by show (1 : ℚ)/2 ≤ 1; norm_num) (by show (1 : ℚ) ≤ 3; norm_num)

/-! ### `calculatePrice` and discounts -/

inductive DiscountType
  | volume
  | loyalty
  | promotional
  | wallet_specific
deriving DecidableEq

structure DiscountRule where
  id : String
  name : String
  type : DiscountType
  discountPercent : ℚ
  minVolume : Option ℚ := none
  walletAddresses : Option (List String) := none
  validUntil : Option Nat := none
  active : Bool
deriving DecidableEq

/-- The per-rule applicability test inside `calculateWalletDiscount`. -/
def discountApplies (volume : ℚ) (walletAddress : String) (r : DiscountRule) : Bool :=
  match r.type with
  | .volume =>
    match r.minVolume with
    | some mv => decide (mv ≤ volume)
    | none => false
  | .wallet_specific =>
    match r.walletAddresses with
    | some ws => ws.contains walletAddress
    | none => false
  | .loyalty => decide (0 < volume)
  | .promotional => true

/-- `calculateWalletDiscount`: maximum applicable discount, starting
from zero, skipping inactive or expired rules. -/
def calculateWalletDiscount (now : Nat) (rules : List DiscountRule) (volume : ℚ)
    (walletAddress : String) (baseAmount : ℚ) : ℚ :=
  rules.foldl
    (fun maxDiscount r =>
      if ¬ r.active then maxDiscount
      else if (match r.validUntil with
                | some vu => decide (vu < now)
                | none => false) then maxDiscount
      else if discountApplies volume walletAddress r then
        max maxDiscount (baseAmount * (r.discountPercent / 100))
      else maxDiscount)
    0

/-- JS `Math.round`: half rounds toward positive infinity. -/
def jsRound (q : ℚ) : ℤ := ⌊q + 1/2⌋

structure PriceResult where
  price : ℚ
  breakdown : List (String × ℚ)
deriving DecidableEq

/-- `calculatePrice` for one agent id: `none` stands for an id absent
from the `agentPricing` map.  Breakdown keys are recorded in insertion
order. -/
def calculatePrice (pricing : Option AgentPricing) (units : ℚ)
    (walletAddress : Option String) (rules : List DiscountRule) (volume : ℚ)
    (now : Nat) : PriceResult :=
  match pricing with
  | none => { price := 0, breakdown := [("error", 1)] }
  | some p =>
    let tm := tierMultiplierOf p.tier
    if tm = 0 then { price := 0, breakdown := [("tier", 0), ("free", 1)] }
    else
      let base0 := p.basePrice * units * tm
      let bd0 := [("base", p.basePrice * units), ("tierMultiplier", tm)]
      let step1 : ℚ × List (String × ℚ) :=
        if p.dynamicPricing then
          (base0 * p.currentMultiplier, bd0 ++ [("demandMultiplier", p.currentMultiplier)])
        else (base0, bd0)
      let step2 : ℚ × List (String × ℚ) :=
        match walletAddress with
        | some w =>
          let d := calculateWalletDiscount now rules volume w step1.1
          if 0 < d then (step1.1 - d, step1.2 ++ [("discount", -d)]) else step1
        | none => step1
      { price := max 0 ((jsRound step2.1 : ℤ) : ℚ), breakdown := step2.2 }

/-- C10: an agent id with no pricing record is priced at 0 with
breakdown `{error: 1}` — no exception, no distinct error channel — and
that 0 price is exactly what a registered free-tier agent also gets, so
the two are indistinguishable in the price field. -/
theorem unknown_agent_priced_zero (units : ℚ) (walletAddress : Option String)
    (rules : List DiscountRule) (volume : ℚ) (now : Nat) :
    calculatePrice none units walletAddress rules volume now
      = { price := 0, breakdown := [("error", 1)] } ∧
    ∀ p : AgentPricing, p.tier = .free →
      (calculatePrice (some p) units walletAddress rules volume now).price = 0 := by
  constructor
  · rfl
  · intro p hfree
    simp only [calculatePrice]
    rw [if_pos (show tierMultiplierOf p.tier = 0 from by rw [hfree]; rfl)]

/-- A registered free-tier pricing record. -/
def freeAgentPricing : AgentPricing :=
  { agentId := "free-agent", basePrice := 100000, model := .per_request
    tier := .free, dynamicPricing := true, currentMultiplier := 1, lastUpdated := 0 }

theorem unknown_agent_priced_zero_witness :
    calculatePrice none 3 (some "w9") [] 0 5
      = { price := 0, breakdown := [("error", 1)] } ∧
    (calculatePrice (some freeAgentPricing) 3 (some "w9") [] 0 5).price = 0 :=
  ⟨(unknown_agent_priced_zero 3 (some "w9") [] 0 5).1,
   (unknown_agent_priced_zero 3 (some "w9") [] 0 5).2 freeAgentPricing rfl⟩

end Modexo
